import Mathlib

/-!
Verification model of the checkpointed per-item pipeline engine of
`src/preprocess/data_agent` (files `graph.py`, `main.py`, `config.py`).

The model has two layers, matching the program's own boundary at
`self.graph.invoke(initial_state)`:

* a graph layer embedding the conversion/validation segment of the LangGraph
  workflow (`graph.py`): the nodes `code_converter_node`, `code_validator_node`,
  `reject_node` and the decision functions `should_retry_conversion` and
  `should_continue_after_validation`, with the external LLM backends
  (`pyne_converter.convert` / `pyne_validator.validate` and the backtrader
  equivalents) abstracted as oracle functions;

* an orchestrator layer embedding `DataProcessor` (`main.py`): `_process_item`,
  `_save_batch_to_parquet`, `_load_checkpoint`, `_save_checkpoint` and the
  `process` loop, with the per-item result of `graph.invoke` abstracted as a
  per-index outcome (a final graph state, a raised `Exception`, or a
  `KeyboardInterrupt`).

Python dictionaries holding only write-only telemetry are modelled up to the
data the program ever reads back: the checkpoint `timestamp` field and the
timestamp embedded in parquet file names are written and never read, so they
are omitted; everything else (`strategy_stats`, `rejection_stats`,
`_batch_stats`, the id/name filtering in the batch writer, the
`hasattr`-guarded lazy initialisation of the stats attributes and the
`AttributeError` it can raise mid-item) is modelled explicitly.
-/

/-! ### Python string helpers -/

/-- Python truthiness of an optional string value: `None` and `""` are falsy. -/
def optStrTruthy : Option String → Bool
  | none => false
  | some s => s != ""

/-- `startsWithL p l` is true when `p` is an initial segment of `l`. -/
def startsWithL : List Char → List Char → Bool
  | [], _ => true
  | _ :: _, [] => false
  | a :: as, b :: bs => a == b && startsWithL as bs

/-- `subListOf p l` is true when `p` occurs contiguously inside `l`. -/
def subListOf : List Char → List Char → Bool
  | [], _ => true
  | _ :: _, [] => false
  | p, c :: cs => startsWithL p (c :: cs) || subListOf p cs

/-- Python's `pat in s` substring test. -/
def strIn (pat s : String) : Bool := subListOf pat.data s.data

/-- Python's `s.lower()`. -/
def strLower (s : String) : String := ⟨s.data.map Char.toLower⟩

/-! ### Configuration constants (`config.py`) -/

/-- `config.BATCH_SIZE = 10`. -/
def BATCH_SIZE : Nat := 10

/-- `config.MAX_CONVERSION_ATTEMPTS = 5`. -/
def MAX_CONVERSION_ATTEMPTS : Nat := 5

/-! ### Raw input records

An input record is a JSON object; the engine reads the fields below
(`item.get(...)` with falsy defaults), so a missing or `None` field is
modelled as `""`. -/

structure RawItem where
  id : String
  name : String
  description : String
  preview_created_at : String
  source_code : String
deriving DecidableEq

/-! ### Graph layer (`graph.py`)

`DataProcessingState` restricted to the fields read or written by the
conversion/validation segment (the two metadata dictionaries are written only
by the description/symbol nodes, which are outside every claim, and are never
read by the modelled code). -/

structure GState where
  raw_data : RawItem
  filter_result : Option Bool
  converted_code : Option String
  validation_result : Option Bool
  validation_reason : Option String
  augmented_description : Option String
  reasoning : Option String
  relevant_symbols : Option (List String)
  conversion_attempts : Nat
  error_message : Option String
  llm_preview : Option String
  status : String
deriving DecidableEq

/-- Response dictionary of the backend converters
(`pyne_converter.convert` / `bt_converter.convert`); `none` models a missing
or `None` key. -/
structure ConvResp where
  converted_code : Option String
  llm_response : Option String
  error : Option String
deriving DecidableEq

/-- Response dictionary of the backend validators. -/
structure ValRes where
  valid : Bool
  reason : Option String
deriving DecidableEq

/-- `code_converter_node` (graph.py lines 101-163).  The LLM backend call
`converter.convert(source_code, feedback=...)` is abstracted as the oracle
`producer`, indexed by the current attempt count so that distinct invocations
may return distinct responses. -/
def code_converter_node (producer : Nat → String → Option String → ConvResp)
    (s : GState) : GState :=
  let attempts := s.conversion_attempts
  let source_code := s.raw_data.source_code
  let feedback := s.error_message
  if source_code == "" then
    { s with converted_code := none,
             conversion_attempts := attempts + 1,
             error_message := some "No source code found",
             status := "conversion_failed" }
  else
    let resp := producer attempts source_code feedback
    if optStrTruthy resp.converted_code then
      { s with converted_code := resp.converted_code,
               conversion_attempts := attempts + 1,
               status := "converted",
               llm_preview := resp.llm_response }
    else
      { s with converted_code := none,
               conversion_attempts := attempts + 1,
               error_message := some (resp.error.getD "Conversion failed"),
               status := "conversion_error" }

/-- `code_validator_node` (graph.py lines 166-219).  The backend call
`validator.validate(original_code, converted_code)` is abstracted as the
oracle `checker`. -/
def code_validator_node (checker : String → String → ValRes) (s : GState) : GState :=
  if optStrTruthy s.converted_code = false then
    { s with validation_result := some false, status := "validation_failed" }
  else
    let original_code := s.raw_data.source_code
    let result := checker original_code (s.converted_code.getD "")
    if result.valid then
      { s with validation_result := some true,
               status := "validated",
               validation_reason := some (result.reason.getD "") }
    else
      { s with validation_result := some false,
               error_message := some (result.reason.getD "Validation failed"),
               status := "validation_rejected" }

/-- `should_retry_conversion` (graph.py lines 357-381). -/
def should_retry_conversion (s : GState) : String :=
  if optStrTruthy s.converted_code then "code_validator"
  else if MAX_CONVERSION_ATTEMPTS ≤ s.conversion_attempts then "reject"
  else "code_converter"

/-- `should_continue_after_validation` (graph.py lines 384-399). -/
def should_continue_after_validation (s : GState) : String :=
  if s.validation_result.getD false then "data_aug_description" else "reject"

/-- `reject_node` (graph.py lines 438-456). -/
def reject_node (s : GState) : GState := { s with status := "rejected" }

/-- The self-loop on `code_converter` induced by the conditional edge
`should_retry_conversion` (graph.py lines 509-517), with explicit fuel.
Returns the state on exit from the loop together with the number of
invocations of `code_converter_node`. -/
def runConvFuel (producer : Nat → String → Option String → ConvResp) :
    Nat → GState → GState × Nat
  | 0, s => (s, 0)
  | fuel + 1, s =>
    let s1 := code_converter_node producer s
    if should_retry_conversion s1 = "code_converter" then
      let r := runConvFuel producer fuel s1
      (r.1, r.2 + 1)
    else
      (s1, 1)

/-- The conversion retry loop.  `MAX_CONVERSION_ATTEMPTS + 1` units of fuel
are provably sufficient (`runConvFuel_exits`). -/
def runConversion (producer : Nat → String → Option String → ConvResp)
    (s : GState) : GState × Nat :=
  runConvFuel producer (MAX_CONVERSION_ATTEMPTS + 1) s

/-- The conversion/validation segment of the compiled graph: the
`code_converter` self-loop, then (following the conditional edges of
`create_data_processing_graph`) either `code_validator` or `reject`, and
after validation either the acceptance path (`data_aug_description`) or
`reject`.  Returns the resulting state and the number of invocations of
`code_converter_node`. -/
def runConvertValidate (producer : Nat → String → Option String → ConvResp)
    (checker : String → String → ValRes) (s : GState) : GState × Nat :=
  let r := runConversion producer s
  if should_retry_conversion r.1 = "code_validator" then
    let s2 := code_validator_node checker r.1
    if should_continue_after_validation s2 = "data_aug_description" then
      (s2, r.2)
    else
      (reject_node s2, r.2)
  else
    (reject_node r.1, r.2)

/-! ### Lemmas about the conversion loop -/

/-- Each invocation of `code_converter_node` increments `conversion_attempts`
by exactly one. -/
theorem code_converter_node_attempts (producer) (s : GState) :
    (code_converter_node producer s).conversion_attempts = s.conversion_attempts + 1 := by
  unfold code_converter_node
  dsimp only
  split
  · rfl
  · split <;> rfl

/-- `should_retry_conversion` returns one of the three declared routes. -/
theorem should_retry_conversion_cases (s : GState) :
    should_retry_conversion s = "code_validator" ∨
    should_retry_conversion s = "reject" ∨
    should_retry_conversion s = "code_converter" := by
  unfold should_retry_conversion
  split
  · exact Or.inl rfl
  · split
    · exact Or.inr (Or.inl rfl)
    · exact Or.inr (Or.inr rfl)

/-- If the decision function re-enters the converter, the attempt bound has
not been reached. -/
theorem should_retry_conversion_retry {s : GState}
    (h : should_retry_conversion s = "code_converter") :
    s.conversion_attempts < MAX_CONVERSION_ATTEMPTS ∧ optStrTruthy s.converted_code = false := by
  unfold should_retry_conversion at h
  by_cases h1 : optStrTruthy s.converted_code
  · simp [h1] at h
  · by_cases h2 : MAX_CONVERSION_ATTEMPTS ≤ s.conversion_attempts
    · simp [h1, h2] at h
    · exact ⟨Nat.lt_of_not_le h2, by simpa using h1⟩

/-- If the decision function routes to the validator, the converter produced
truthy output. -/
theorem should_retry_conversion_validator {s : GState}
    (h : should_retry_conversion s = "code_validator") :
    optStrTruthy s.converted_code = true := by
  unfold should_retry_conversion at h
  by_cases h1 : optStrTruthy s.converted_code
  · exact h1
  · by_cases h2 : MAX_CONVERSION_ATTEMPTS ≤ s.conversion_attempts <;> simp [h1, h2] at h

/-- The attempt counter after the loop equals the counter before plus the
number of converter invocations. -/
theorem runConvFuel_attempts (producer) :
    ∀ (fuel : Nat) (s : GState),
      (runConvFuel producer fuel s).1.conversion_attempts =
        s.conversion_attempts + (runConvFuel producer fuel s).2 := by
  intro fuel
  induction fuel with
  | zero => intro s; simp [runConvFuel]
  | succ f ih =>
    intro s
    unfold runConvFuel
    dsimp only
    split
    · rename_i h
      rw [ih]
      rw [code_converter_node_attempts]
      omega
    · rw [code_converter_node_attempts]

/-- With enough fuel, the loop performs between `1` and
`max 1 (MAX_CONVERSION_ATTEMPTS - attempts)` converter invocations and exits
on a route other than `code_converter`. -/
theorem runConvFuel_exits (producer) :
    ∀ (fuel : Nat) (s : GState),
      1 ≤ fuel →
      MAX_CONVERSION_ATTEMPTS + 1 ≤ fuel + s.conversion_attempts →
      1 ≤ (runConvFuel producer fuel s).2 ∧
      (runConvFuel producer fuel s).2 ≤ max 1 (MAX_CONVERSION_ATTEMPTS - s.conversion_attempts) ∧
      should_retry_conversion (runConvFuel producer fuel s).1 ≠ "code_converter" := by
  intro fuel
  induction fuel with
  | zero => intro s h1 _; omega
  | succ f ih =>
    intro s _ hfuel
    unfold runConvFuel
    dsimp only
    split
    · rename_i h
      have hb := should_retry_conversion_retry h
      have ha := code_converter_node_attempts producer s
      have hf1 : 1 ≤ f := by omega
      have hf2 : MAX_CONVERSION_ATTEMPTS + 1 ≤
          f + (code_converter_node producer s).conversion_attempts := by omega
      have := ih (code_converter_node producer s) hf1 hf2
      refine ⟨by omega, ?_, this.2.2⟩
      omega
    · rename_i h
      exact ⟨le_refl 1, by omega, h⟩

/-- When the converter produced truthy output but the backend validator
reports invalid, `code_validator_node` records a failing validation result
and the validator's reason as `error_message`. -/
theorem code_validator_node_invalid (checker : String → String → ValRes) (s : GState)
    (ht : optStrTruthy s.converted_code = true)
    (hv : (checker s.raw_data.source_code (s.converted_code.getD "")).valid = false) :
    (code_validator_node checker s).validation_result = some false := by
  simp [code_validator_node, ht, hv]

/-- A failing validation result makes the post-validation decision function
route to `reject`. -/
theorem should_continue_reject {s : GState} (h : s.validation_result = some false) :
    should_continue_after_validation s = "reject" := by
  simp [should_continue_after_validation, h]

/-- C5: for an item whose checker always fails, the converter is invoked at
least once and at most `MAX_CONVERSION_ATTEMPTS` times before the item is
rejected; the loop terminates because `conversion_attempts` strictly
increases and reaching the bound forces the `reject` route. -/
theorem c5_retry_bound (producer : Nat → String → Option String → ConvResp)
    (checker : String → String → ValRes) (s : GState)
    (h0 : s.conversion_attempts = 0)
    (hfail : ∀ a b, (checker a b).valid = false) :
    (runConvertValidate producer checker s).1.status = "rejected" ∧
    1 ≤ (runConvertValidate producer checker s).2 ∧
    (runConvertValidate producer checker s).2 ≤ MAX_CONVERSION_ATTEMPTS := by
  have h5 : MAX_CONVERSION_ATTEMPTS = 5 := rfl
  have hex := runConvFuel_exits producer (MAX_CONVERSION_ATTEMPTS + 1) s (by omega) (by omega)
  have h1 := hex.1
  have h2 := hex.2.1
  rw [h0, h5] at h2
  have hb : (runConvFuel producer (MAX_CONVERSION_ATTEMPTS + 1) s).2 ≤ MAX_CONVERSION_ATTEMPTS := by
    rw [h5]; omega
  unfold runConvertValidate
  dsimp only
  split
  · rename_i hroute
    have htr := should_retry_conversion_validator hroute
    have hval := code_validator_node_invalid checker _ htr (hfail _ _)
    rw [should_continue_reject hval]
    rw [if_neg (by decide)]
    exact ⟨rfl, h1, hb⟩
  · exact ⟨rfl, h1, hb⟩

/-- Concrete always-failing converter backend for the C5 witness. -/
def c5Producer : Nat → String → Option String → ConvResp := fun _ _ _ => ⟨none, none, some "llm down"⟩

/-- Concrete always-failing validator backend for the C5 witness. -/
def c5Checker : String → String → ValRes := fun _ _ => ⟨false, some "bad semantics"⟩

/-- Concrete item state for the C5 witness. -/
def c5State : GState :=
  { raw_data := ⟨"i1", "n1", "d1", "t1", "plot(close)"⟩,
    filter_result := some true, converted_code := none,
    validation_result := none, validation_reason := none,
    augmented_description := none, reasoning := none, relevant_symbols := none,
    conversion_attempts := 0, error_message := none, llm_preview := none,
    status := "filtered" }

/-- C5 witness: evaluating the retry bound at a concrete producer, checker
and state. -/
theorem c5_retry_bound_witness :
    c5State.conversion_attempts = 0 ∧
    (∀ a b, (c5Checker a b).valid = false) ∧
    ((runConvertValidate c5Producer c5Checker c5State).1.status = "rejected" ∧
     1 ≤ (runConvertValidate c5Producer c5Checker c5State).2 ∧
     (runConvertValidate c5Producer c5Checker c5State).2 ≤ MAX_CONVERSION_ATTEMPTS) :=
  ⟨rfl, fun _ _ => rfl, c5_retry_bound c5Producer c5Checker c5State rfl (fun _ _ => rfl)⟩

/-- C10: an item with empty `source_code` entering the converter with
`conversion_attempts = 0` is re-converted deterministically: the node returns
the failing update `No source code found` and increments the counter on each
invocation, so the converter node runs exactly `5` times before the item is
routed to `reject`, never touching the LLM backend. -/
theorem c10_empty_source_five_attempts (producer : Nat → String → Option String → ConvResp)
    (checker : String → String → ValRes) (s : GState)
    (hsrc : s.raw_data.source_code = "") (h0 : s.conversion_attempts = 0) :
    (runConvertValidate producer checker s).2 = 5 ∧
    (runConvertValidate producer checker s).1.status = "rejected" ∧
    (runConvertValidate producer checker s).1.conversion_attempts = 5 ∧
    (runConvertValidate producer checker s).1.error_message = some "No source code found" := by
  simp [runConvertValidate, runConversion, runConvFuel, code_converter_node,
    should_retry_conversion, should_continue_after_validation, reject_node,
    code_validator_node, optStrTruthy, hsrc, h0, MAX_CONVERSION_ATTEMPTS]

/-- Concrete item with no `source_code` for the C10 witness. -/
def c10State : GState :=
  { raw_data := ⟨"i2", "n2", "a long description", "t2", ""⟩,
    filter_result := some true, converted_code := none,
    validation_result := none, validation_reason := none,
    augmented_description := none, reasoning := none, relevant_symbols := none,
    conversion_attempts := 0, error_message := none, llm_preview := none,
    status := "filtered" }

/-- Concrete converter backend for the C10 witness (never reached). -/
def c10Producer : Nat → String → Option String → ConvResp :=
  fun _ src _ => ⟨some ("converted " ++ src), none, none⟩

/-- Concrete validator backend for the C10 witness (never reached). -/
def c10Checker : String → String → ValRes := fun _ _ => ⟨true, none⟩

/-- C10 witness: evaluating the deterministic-failure retry behaviour on a
concrete empty-source item. -/
theorem c10_empty_source_five_attempts_witness :
    c10State.raw_data.source_code = "" ∧
    c10State.conversion_attempts = 0 ∧
    ((runConvertValidate c10Producer c10Checker c10State).2 = 5 ∧
     (runConvertValidate c10Producer c10Checker c10State).1.status = "rejected" ∧
     (runConvertValidate c10Producer c10Checker c10State).1.conversion_attempts = 5 ∧
     (runConvertValidate c10Producer c10Checker c10State).1.error_message = some "No source code found") :=
  ⟨rfl, rfl, c10_empty_source_five_attempts c10Producer c10Checker c10State rfl rfl⟩

/-- Concrete post-conversion state for C1: the converter succeeded on the
first attempt. -/
def c1State : GState :=
  { raw_data := ⟨"i3", "n3", "d3", "t3", "plot(close)"⟩,
    filter_result := some true, converted_code := some "class Ind: pass",
    validation_result := none, validation_reason := none,
    augmented_description := none, reasoning := none, relevant_symbols := none,
    conversion_attempts := 1, error_message := none, llm_preview := none,
    status := "converted" }

/-- Concrete validator backend for C1 that fails with a reason. -/
def c1Checker : String → String → ValRes := fun _ _ => ⟨false, some "semantics differ"⟩

/-- C1: evaluating the code at the failing input.  When the validator fails
on an item whose converter succeeded, the failure reason is stored in
`error_message` (intended as feedback for the converter), but the decision
function after validation routes to `reject`, not back to `code_converter`,
so the converter is never re-invoked with that feedback. -/
theorem c1_validation_failure_routes_to_reject :
    (code_validator_node c1Checker c1State).validation_result = some false ∧
    (code_validator_node c1Checker c1State).error_message = some "semantics differ" ∧
    should_continue_after_validation (code_validator_node c1Checker c1State) = "reject" ∧
    should_continue_after_validation (code_validator_node c1Checker c1State) ≠ "code_converter" :=
  ⟨rfl, rfl, rfl, by decide⟩

/-! ### Orchestrator layer (`main.py`) -/

/-- The `_rejection_stats` dictionary: four integer tallies keyed by
rejection reason; note it has no field that could store an exception text. -/
structure RejStats where
  filter : Nat
  conversion : Nat
  validation : Nat
  other : Nat
deriving DecidableEq

/-- The `_strategy_stats` dictionary. -/
structure StratStats where
  total_strategies : Nat
  conversion_success : Nat
  conversion_failed : Nat
  validation_success : Nat
  validation_failed : Nat
  llm_quality_rejected : Nat
deriving DecidableEq

/-- The lazily created statistics attributes of `DataProcessor`; `none`
models `hasattr(self, '_...') == False`. -/
structure Attrs where
  strategy_stats : Option StratStats
  rejection_stats : Option RejStats
deriving DecidableEq

/-- The dictionary literal at main.py lines 122-127 / 183. -/
def initRejStats : RejStats := ⟨0, 0, 0, 0⟩

/-- The dictionary literal at main.py lines 130-137. -/
def initStratStats : StratStats := ⟨0, 0, 0, 0, 0, 0⟩

/-- The final graph state as read back by `_process_item`.  In every state
`graph.invoke` can return, `status` is a string, and on the accepted path
the remaining fields have been set by the description/symbol/reasoning
nodes, so they are modelled as plain values with `""` / `[]` / `False` for
missing-or-`None`. -/
structure GraphResult where
  status : String
  augmented_description : String
  reasoning : String
  converted_code : String
  relevant_symbols : List String
  validation_result : Bool
  rejection_reason : String
deriving DecidableEq

/-- The outcome of `self.graph.invoke(initial_state)` for one item: a final
state, a raised `Exception` with its text, or a `KeyboardInterrupt`. -/
inductive GraphOutcome where
  | ok (r : GraphResult)
  | exc (msg : String)
  | intr
deriving DecidableEq

/-- The projected output record built at main.py lines 169-177. -/
structure PRec where
  id : String
  name : String
  description : String
  reasoning : String
  created_at : String
  source_code : String
  relevant_symbols : String
deriving DecidableEq

/-- The strategy-item test at main.py line 115. -/
def isStrategyItem (item : RawItem) : Bool :=
  strIn "strategy(" item.source_code &&
    (strIn "strategy.entry" item.source_code || strIn "strategy.order" item.source_code)

/-- The `except Exception` handler at main.py lines 181-185: initialise
`_rejection_stats` when absent, increment `other`, discard the exception. -/
def bumpOther (a : Attrs) : Attrs :=
  let r := a.rejection_stats.getD initRejStats
  { a with rejection_stats := some ({ r with other := r.other + 1 }) }

/-- The body of the `try` block of `DataProcessor._process_item`
(main.py lines 108-179) when `graph.invoke` returned the final state `r`.
`Except.error` models an exception raised inside the `try` body: the only
reachable raise is the `AttributeError` at line 118, which fires when the
item is a strategy and `_strategy_stats` does not yet exist, before any
state is mutated. -/
def bumpTotalStrategies (is_strategy : Bool) (a : Attrs) : Except String Attrs :=
  if is_strategy then
    match a.strategy_stats with
    | none => Except.error "AttributeError: _strategy_stats"
    | some st =>
      let st2 := { st with total_strategies := st.total_strategies + 1 }
      Except.ok { a with strategy_stats := some st2 }
  else Except.ok a

/-- The remainder of the `try` block after line 118. -/
def processItemTry (a : Attrs) (item : RawItem) (r : GraphResult) :
    Except String (Attrs × Option PRec) :=
  let status := r.status
  let is_strategy := isStrategyItem item
  match bumpTotalStrategies is_strategy a with
  | Except.error e => Except.error e
  | Except.ok a1 =>
    let a2 : Attrs := { a1 with rejection_stats := some (a1.rejection_stats.getD initRejStats) }
    let a3 : Attrs := { a2 with strategy_stats := some (a2.strategy_stats.getD initStratStats) }
    let rej := a3.rejection_stats.getD initRejStats
    let st := a3.strategy_stats.getD initStratStats
    if status == "rejected" || status == "rejected_by_filter" || status == "filter_error" then
      let a4 := { a3 with rejection_stats := some ({ rej with filter := rej.filter + 1 }) }
      let a5 :=
        if is_strategy && strIn "quality" (strLower r.rejection_reason) then
          let st2 := { st with llm_quality_rejected := st.llm_quality_rejected + 1 }
          { a4 with strategy_stats := some st2 }
        else a4
      Except.ok (a5, none)
    else if status == "conversion_failed" || status == "conversion_error" then
      let a4 := { a3 with rejection_stats := some ({ rej with conversion := rej.conversion + 1 }) }
      let a5 :=
        if is_strategy then
          let st2 := { st with conversion_failed := st.conversion_failed + 1 }
          { a4 with strategy_stats := some st2 }
        else a4
      Except.ok (a5, none)
    else if status == "validation_failed" || status == "validation_error" then
      let a4 := { a3 with rejection_stats := some ({ rej with validation := rej.validation + 1 }) }
      let a5 :=
        if is_strategy then
          let st2 := { st with validation_failed := st.validation_failed + 1 }
          { a4 with strategy_stats := some st2 }
        else a4
      Except.ok (a5, none)
    else if status == "error" then
      Except.ok ({ a3 with rejection_stats := some ({ rej with other := rej.other + 1 }) }, none)
    else
      let a4 :=
        if is_strategy && (r.converted_code != "") then
          let st2 := { st with conversion_success := st.conversion_success + 1 }
          { a3 with strategy_stats := some st2 }
        else a3
      let st4 := a4.strategy_stats.getD initStratStats
      let a5 :=
        if is_strategy && r.validation_result then
          let st5 := { st4 with validation_success := st4.validation_success + 1 }
          { a4 with strategy_stats := some st5 }
        else a4
      let processed : PRec :=
        { id := item.id, name := item.name,
          description := r.augmented_description,
          reasoning := r.reasoning,
          created_at := item.preview_created_at,
          source_code := r.converted_code,
          relevant_symbols := String.intercalate "," r.relevant_symbols }
      Except.ok (a5, some processed)

/-- `DataProcessor._process_item` (main.py lines 81-185).  The
`except Exception` handler discards the exception text and yields `None`.
A `KeyboardInterrupt` is not a Python `Exception` and propagates; the
`.intr` case is never reached from `runLoop`, which stops before calling
this function. -/
def processItem (a : Attrs) (item : RawItem) (g : GraphOutcome) : Attrs × Option PRec :=
  match g with
  | .intr => (a, none)
  | .exc _ => (bumpOther a, none)
  | .ok r =>
    match processItemTry a item r with
    | .ok res => res
    | .error _ => (bumpOther a, none)

/-- The checkpoint dictionary.  The `timestamp` field (written on every save,
never read back) is omitted; the two stats keys are present exactly when the
corresponding attribute existed at save time. -/
structure CheckpointData where
  last_processed_index : Int
  processed_count : Nat
  rejected_count : Nat
  strategy_stats : Option StratStats
  rejection_stats : Option RejStats
deriving DecidableEq

/-- The fresh checkpoint dictionary (main.py lines 55-60). -/
def freshCheckpoint : CheckpointData := ⟨-1, 0, 0, none, none⟩

/-- The state of the checkpoint file on disk. -/
inductive CkptFile where
  | absent
  | corrupt
  | valid (c : CheckpointData)
deriving DecidableEq

/-- `DataProcessor._load_checkpoint` (main.py lines 42-60) together with the
attribute restoration it performs.  `.corrupt` models an existing file whose
contents `json.load` cannot parse: the `JSONDecodeError` propagates — the
function body has no handler — aborting `DataProcessor.__init__`. -/
def loadCheckpoint (f : CkptFile) (a : Attrs) : Except String (CheckpointData × Attrs) :=
  match f with
  | .absent => .ok (freshCheckpoint, a)
  | .corrupt => .error "json.decoder.JSONDecodeError"
  | .valid c =>
    .ok (c,
      { strategy_stats := match c.strategy_stats with
          | some st => some st
          | none => a.strategy_stats,
        rejection_stats := match c.rejection_stats with
          | some r => some r
          | none => a.rejection_stats })

/-- The dictionary written by `DataProcessor._save_checkpoint`
(main.py lines 62-73): the stats keys are refreshed from the attributes when
those exist. -/
def savedCheckpoint (a : Attrs) (c : CheckpointData) : CheckpointData :=
  { c with
    strategy_stats := match a.strategy_stats with
      | some st => some st
      | none => c.strategy_stats,
    rejection_stats := match a.rejection_stats with
      | some r => some r
      | none => c.rejection_stats }

/-- A per-batch entry of `_batch_stats` (main.py lines 212-217). -/
structure BatchStat where
  batch_num : Nat
  total : Nat
  accepted : Nat
  rejected : Nat
deriving DecidableEq

/-- The mutable state of one `DataProcessor.process` run: the in-memory
checkpoint dictionary, the stats attributes, the checkpoint file, the batch
buffer, the batch counter, and the parquet artifacts written so far (batch
number paired with the records the file contains, in written order). -/
structure RunState where
  ckpt : CheckpointData
  attrs : Attrs
  file : CkptFile
  current_batch : List (Option PRec)
  batch_num : Nat
  artifacts : List (Nat × List PRec)
  batch_stats : List BatchStat
deriving DecidableEq

/-- The record filter of `_save_batch_to_parquet` (main.py line 201):
`record.get("id") and record.get("name")` — truthy id and name. -/
def goodRec (r : PRec) : Bool := r.id != "" && r.name != ""

/-- `successful_records` (main.py lines 199-202). -/
def successfulRecords (batch : List (Option PRec)) : List PRec :=
  batch.filterMap (fun o => match o with
    | some r => if goodRec r then some r else none
    | none => none)

/-- `DataProcessor._save_batch_to_parquet` (main.py lines 187-232): an empty
buffer, or a buffer with no successful records, writes nothing; otherwise a
batch statistic is appended and one parquet artifact is written containing
the successful records in buffer order. -/
def saveBatchToParquet (st : RunState) (batch_data : List (Option PRec)) (batch_num : Nat) :
    RunState :=
  if batch_data.isEmpty then st
  else
    let succ := successfulRecords batch_data
    if succ.isEmpty then st
    else
      { st with
        batch_stats := st.batch_stats ++
          [⟨batch_num, batch_data.length, succ.length, batch_data.length - succ.length⟩],
        artifacts := st.artifacts ++ [(batch_num, succ)] }

/-- A call of `self._save_checkpoint()` from `process`. -/
def saveCheckpointFile (st : RunState) : RunState :=
  let c := savedCheckpoint st.attrs st.ckpt
  { st with ckpt := c, file := CkptFile.valid c }

/-- One iteration of the `process` loop body (main.py lines 405-427) for an
index whose `graph.invoke` does not raise `KeyboardInterrupt`: process the
item, append the result to the buffer, update the checkpoint counters. -/
def stepCore (item : RawItem) (g : GraphOutcome) (idx : Nat) (st : RunState) : RunState :=
  let ap := processItem st.attrs item g
  { st with
    attrs := ap.1,
    current_batch := st.current_batch ++ [ap.2],
    ckpt := { st.ckpt with
      last_processed_index := (idx : Int),
      processed_count := st.ckpt.processed_count + 1,
      rejected_count := st.ckpt.rejected_count + (if ap.2.isNone then 1 else 0) } }

/-- The batch-full path (main.py lines 421-427): flush the buffer, advance
the batch counter, save the checkpoint. -/
def stepFlush (st : RunState) : RunState :=
  let st1 := saveBatchToParquet st st.current_batch st.batch_num
  let st2 := { st1 with current_batch := [], batch_num := st1.batch_num + 1 }
  saveCheckpointFile st2

/-- One full iteration of the `process` loop body. -/
def stepItem (item : RawItem) (g : GraphOutcome) (idx : Nat) (st : RunState) : RunState :=
  let st1 := stepCore item g idx st
  if BATCH_SIZE ≤ st1.current_batch.length then stepFlush st1 else st1

/-- The `for idx in range(start_index, total_items)` loop of
`DataProcessor.process`; `n` is the number of remaining indices, `idx` the
next one.  A `KeyboardInterrupt` (modelled as `GraphOutcome.intr`)
propagates immediately: none of that iteration's updates happen and the
result is flagged interrupted. -/
def runLoop (data : Nat → RawItem) (g : Nat → GraphOutcome) :
    Nat → Nat → RunState → RunState × Bool
  | 0, _, st => (st, false)
  | n + 1, idx, st =>
    if g idx = GraphOutcome.intr then (st, true)
    else runLoop data g n (idx + 1) (stepItem (data idx) (g idx) idx st)

/-- `DataProcessor.process` (main.py lines 369-437) from a given in-memory
checkpoint, stats attributes and checkpoint file.  On `KeyboardInterrupt`
the loop state is returned unfinalised: the final flush, the final
checkpoint save and the report (lines 429-437) are all skipped, matching
the bare `except KeyboardInterrupt` handler in `main` (lines 478-482). -/
def processRun (data : Nat → RawItem) (g : Nat → GraphOutcome) (total_items : Nat)
    (ckpt0 : CheckpointData) (attrs0 : Attrs) (file0 : CkptFile) (resume : Bool) :
    RunState × Bool :=
  let start_index : Nat := if resume then (ckpt0.last_processed_index + 1).toNat else 0
  let st0 : RunState :=
    { ckpt := ckpt0, attrs := attrs0, file := file0,
      current_batch := [], batch_num := start_index / BATCH_SIZE,
      artifacts := [], batch_stats := [] }
  let r := runLoop data g (total_items - start_index) start_index st0
  if r.2 then (r.1, true)
  else
    let st1 := if r.1.current_batch.isEmpty then r.1
      else saveBatchToParquet r.1 r.1.current_batch r.1.batch_num
    (saveCheckpointFile st1, false)

/-- A run of a `DataProcessor` constructed with no prior checkpoint file
(`_load_checkpoint` returns the fresh dictionary, no attributes restored). -/
def freshRun (data : Nat → RawItem) (g : Nat → GraphOutcome) (total_items : Nat) :
    RunState × Bool :=
  processRun data g total_items freshCheckpoint ⟨none, none⟩ CkptFile.absent true

/-- The per-item results of the loop over `n` indices starting at `idx`, in
order, threading the stats attributes. -/
def procSeq (data : Nat → RawItem) (g : Nat → GraphOutcome) :
    Nat → Nat → Attrs → List (Option PRec) × Attrs
  | 0, _, a => ([], a)
  | n + 1, idx, a =>
    let ap := processItem a (data idx) (g idx)
    let r := procSeq data g n (idx + 1) ap.1
    (ap.2 :: r.1, r.2)

/-- Number of rejected (`None`) entries among the per-item results. -/
def countNone (l : List (Option PRec)) : Nat := l.countP (fun o => o.isNone)

/-- All records contained in a list of parquet artifacts, in written order. -/
def flatRecords (l : List (Nat × List PRec)) : List PRec :=
  l.foldr (fun p acc => p.2 ++ acc) []

/-- The records durably written so far plus those the buffer would
contribute: the loop invariant quantity for output purity. -/
def outFlat (st : RunState) : List PRec :=
  flatRecords st.artifacts ++ successfulRecords st.current_batch

/-! ### Loop lemmas -/

theorem successfulRecords_append (l1 l2 : List (Option PRec)) :
    successfulRecords (l1 ++ l2) = successfulRecords l1 ++ successfulRecords l2 := by
  unfold successfulRecords
  exact List.filterMap_append l1 l2 _

theorem flatRecords_append (l1 l2 : List (Nat × List PRec)) :
    flatRecords (l1 ++ l2) = flatRecords l1 ++ flatRecords l2 := by
  induction l1 with
  | nil => rfl
  | cons x xs ih =>
    show x.2 ++ flatRecords (xs ++ l2) = (x.2 ++ flatRecords xs) ++ flatRecords l2
    rw [ih, List.append_assoc]

theorem countNone_append (l1 l2 : List (Option PRec)) :
    countNone (l1 ++ l2) = countNone l1 + countNone l2 := by
  unfold countNone
  exact List.countP_append _ l1 l2

/-- `_save_batch_to_parquet` appends exactly the successful records of the
buffer to the artifact stream, and touches nothing else. -/
theorem saveBatchToParquet_spec (st : RunState) (b : List (Option PRec)) (bn : Nat) :
    flatRecords (saveBatchToParquet st b bn).artifacts =
      flatRecords st.artifacts ++ successfulRecords b ∧
    (saveBatchToParquet st b bn).ckpt = st.ckpt ∧
    (saveBatchToParquet st b bn).attrs = st.attrs ∧
    (saveBatchToParquet st b bn).file = st.file ∧
    (saveBatchToParquet st b bn).current_batch = st.current_batch ∧
    (saveBatchToParquet st b bn).batch_num = st.batch_num := by
  simp only [saveBatchToParquet]
  split
  · rename_i hb
    have : b = [] := List.isEmpty_iff.mp hb
    subst this
    simp [successfulRecords]
  · split
    · rename_i hs
      have : successfulRecords b = [] := List.isEmpty_iff.mp hs
      rw [this]
      simp
    · refine ⟨?_, rfl, rfl, rfl, rfl, rfl⟩
      rw [flatRecords_append]
      simp [flatRecords]

/-- `savedCheckpoint` preserves the index and both counters. -/
theorem savedCheckpoint_counts (a : Attrs) (c : CheckpointData) :
    (savedCheckpoint a c).last_processed_index = c.last_processed_index ∧
    (savedCheckpoint a c).processed_count = c.processed_count ∧
    (savedCheckpoint a c).rejected_count = c.rejected_count := by
  unfold savedCheckpoint
  exact ⟨rfl, rfl, rfl⟩

/-- The flush path preserves the stats attributes, the three checkpoint
counters and the output-purity quantity `outFlat`. -/
theorem stepFlush_spec (st : RunState) :
    (stepFlush st).attrs = st.attrs ∧
    (stepFlush st).ckpt.processed_count = st.ckpt.processed_count ∧
    (stepFlush st).ckpt.rejected_count = st.ckpt.rejected_count ∧
    (stepFlush st).ckpt.last_processed_index = st.ckpt.last_processed_index ∧
    outFlat (stepFlush st) = outFlat st := by
  obtain ⟨hA, hC, hAt, hF, hB, hN⟩ := saveBatchToParquet_spec st st.current_batch st.batch_num
  unfold stepFlush saveCheckpointFile
  dsimp only
  rw [hC, hAt]
  refine ⟨rfl, (savedCheckpoint_counts _ _).2.1, (savedCheckpoint_counts _ _).2.2,
    (savedCheckpoint_counts _ _).1, ?_⟩
  unfold outFlat
  dsimp only
  rw [hA]
  simp [successfulRecords]

/-- The per-item core update: attribute threading, counter updates and the
`outFlat` increment. -/
theorem stepCore_spec (item : RawItem) (g : GraphOutcome) (idx : Nat) (st : RunState) :
    (stepCore item g idx st).attrs = (processItem st.attrs item g).1 ∧
    (stepCore item g idx st).ckpt.processed_count = st.ckpt.processed_count + 1 ∧
    (stepCore item g idx st).ckpt.rejected_count =
      st.ckpt.rejected_count + (if (processItem st.attrs item g).2.isNone then 1 else 0) ∧
    (stepCore item g idx st).ckpt.last_processed_index = (idx : Int) ∧
    outFlat (stepCore item g idx st) =
      outFlat st ++ successfulRecords [(processItem st.attrs item g).2] := by
  refine ⟨rfl, rfl, rfl, rfl, ?_⟩
  unfold stepCore outFlat
  dsimp only
  rw [successfulRecords_append, List.append_assoc]

/-- One full loop iteration: attribute threading, counter updates and the
`outFlat` increment. -/
theorem stepItem_spec (item : RawItem) (g : GraphOutcome) (idx : Nat) (st : RunState) :
    (stepItem item g idx st).attrs = (processItem st.attrs item g).1 ∧
    (stepItem item g idx st).ckpt.processed_count = st.ckpt.processed_count + 1 ∧
    (stepItem item g idx st).ckpt.rejected_count =
      st.ckpt.rejected_count + (if (processItem st.attrs item g).2.isNone then 1 else 0) ∧
    (stepItem item g idx st).ckpt.last_processed_index = (idx : Int) ∧
    outFlat (stepItem item g idx st) =
      outFlat st ++ successfulRecords [(processItem st.attrs item g).2] := by
  obtain ⟨c1, c2, c3, c4, c5⟩ := stepCore_spec item g idx st
  unfold stepItem
  dsimp only
  split
  · obtain ⟨f1, f2, f3, f4, f5⟩ := stepFlush_spec (stepCore item g idx st)
    exact ⟨f1.trans c1, f2.trans c2, f3.trans c3, f4.trans c4, f5.trans c5⟩
  · exact ⟨c1, c2, c3, c4, c5⟩

theorem countNone_cons (o : Option PRec) (l : List (Option PRec)) :
    countNone (o :: l) = (if o.isNone then 1 else 0) + countNone l := by
  unfold countNone
  rw [List.countP_cons]
  omega

/-- Master characterization of the `process` loop over an interrupt-free
index range: it completes, threads the stats attributes like `procSeq`,
adds the item count to `processed_count`, adds the number of `None` results
to `rejected_count`, extends the written output by exactly the successful
records of the per-item results, and leaves `last_processed_index` at the
last index processed. -/
theorem runLoop_spec (data : Nat → RawItem) (g : Nat → GraphOutcome) :
    ∀ (n idx : Nat) (st : RunState),
      (∀ t, t < n → g (idx + t) ≠ GraphOutcome.intr) →
      (runLoop data g n idx st).2 = false ∧
      (runLoop data g n idx st).1.attrs = (procSeq data g n idx st.attrs).2 ∧
      (runLoop data g n idx st).1.ckpt.processed_count = st.ckpt.processed_count + n ∧
      (runLoop data g n idx st).1.ckpt.rejected_count =
        st.ckpt.rejected_count + countNone (procSeq data g n idx st.attrs).1 ∧
      outFlat (runLoop data g n idx st).1 =
        outFlat st ++ successfulRecords (procSeq data g n idx st.attrs).1 ∧
      (runLoop data g n idx st).1.ckpt.last_processed_index =
        (if n = 0 then st.ckpt.last_processed_index else ((idx + n - 1 : Nat) : Int)) := by
  intro n
  induction n with
  | zero =>
    intro idx st _
    simp [runLoop, procSeq, countNone, successfulRecords, outFlat]
  | succ m ih =>
    intro idx st hni
    have hg : g idx ≠ GraphOutcome.intr := by
      have := hni 0 (by omega)
      simpa using this
    have hni2 : ∀ t, t < m → g (idx + 1 + t) ≠ GraphOutcome.intr := by
      intro t ht
      have := hni (t + 1) (by omega)
      have he : idx + (t + 1) = idx + 1 + t := by omega
      rw [he] at this
      exact this
    obtain ⟨s1, s2, s3, s4, s5⟩ := stepItem_spec (data idx) (g idx) idx st
    obtain ⟨i1, i2, i3, i4, i5, i6⟩ := ih (idx + 1) (stepItem (data idx) (g idx) idx st) hni2
    rw [s1] at i2 i4 i5
    have hloop : runLoop data g (m + 1) idx st =
        runLoop data g m (idx + 1) (stepItem (data idx) (g idx) idx st) := by
      simp only [runLoop]
      rw [if_neg hg]
    rw [hloop]
    simp only [procSeq]
    refine ⟨i1, i2, ?_, ?_, ?_, ?_⟩
    · rw [i3, s2]; omega
    · rw [i4, s3, countNone_cons]; omega
    · rw [i5, s5]
      have : successfulRecords ((processItem st.attrs (data idx) (g idx)).2 ::
          (procSeq data g m (idx + 1) (processItem st.attrs (data idx) (g idx)).1).1) =
          successfulRecords [(processItem st.attrs (data idx) (g idx)).2] ++
          successfulRecords (procSeq data g m (idx + 1) (processItem st.attrs (data idx) (g idx)).1).1 := by
        rw [← successfulRecords_append]
        rfl
      rw [this, List.append_assoc]
    · rw [i6]
      by_cases hm : m = 0
      · subst hm
        rw [if_pos rfl, s4, if_neg (by omega)]
        norm_num
      · rw [if_neg hm, if_neg (by omega)]
        have : idx + 1 + m - 1 = idx + (m + 1) - 1 := by omega
        rw [this]

/-- Splitting the per-item result sequence at an intermediate point. -/
theorem procSeq_add (data : Nat → RawItem) (g : Nat → GraphOutcome) :
    ∀ (m n idx : Nat) (a : Attrs),
      (procSeq data g (m + n) idx a).1 =
        (procSeq data g m idx a).1 ++ (procSeq data g n (idx + m) (procSeq data g m idx a).2).1 ∧
      (procSeq data g (m + n) idx a).2 =
        (procSeq data g n (idx + m) (procSeq data g m idx a).2).2 := by
  intro m
  induction m with
  | zero => intro n idx a; simp [procSeq]
  | succ k ih =>
    intro n idx a
    have he : k + 1 + n = (k + n) + 1 := by omega
    rw [he]
    simp only [procSeq]
    obtain ⟨h1, h2⟩ := ih n (idx + 1) (processItem a (data idx) (g idx)).1
    have hidx : idx + 1 + k = idx + (k + 1) := by omega
    rw [hidx] at h1 h2
    constructor
    · rw [h1, List.cons_append]
    · exact h2

/-- Whenever the `try` body of `_process_item` completes, both stats
attributes exist afterwards (they are initialised unconditionally at
main.py lines 121-137). -/
theorem processItemTry_ok_stats (a : Attrs) (item : RawItem) (r : GraphResult)
    (res : Attrs × Option PRec) (h : processItemTry a item r = Except.ok res) :
    res.1.strategy_stats.isSome = true ∧ res.1.rejection_stats.isSome = true := by
  unfold processItemTry at h
  dsimp only at h
  cases hb : bumpTotalStrategies (isStrategyItem item) a with
  | error e => rw [hb] at h; exact absurd h (by simp)
  | ok a1 =>
    rw [hb] at h
    dsimp only at h
    split_ifs at h <;>
      (simp only [Except.ok.injEq] at h; subst h; simp)

/-- `_process_item` never deletes a stats attribute: if an attribute is
absent afterwards, it was absent before. -/
theorem processItem_attrs_mono (a : Attrs) (item : RawItem) (g : GraphOutcome) :
    ((processItem a item g).1.strategy_stats = none → a.strategy_stats = none) ∧
    ((processItem a item g).1.rejection_stats = none → a.rejection_stats = none) := by
  cases g with
  | intr => simp [processItem]
  | exc m => simp [processItem, bumpOther]
  | ok r =>
    simp only [processItem]
    cases hp : processItemTry a item r with
    | error e => simp [bumpOther]
    | ok res =>
      obtain ⟨h1, h2⟩ := processItemTry_ok_stats a item r res hp
      dsimp only
      constructor
      · intro hn; rw [hn] at h1; simp at h1
      · intro hn; rw [hn] at h2; simp at h2

/-- The invariant tying the in-memory checkpoint dictionary to the stats
attributes: a stats key can be present in the dictionary only when the
corresponding attribute exists (keys enter the dictionary only via
`_save_checkpoint`, copying an existing attribute). -/
def AttrsCkptOk (st : RunState) : Prop :=
  (st.attrs.strategy_stats = none → st.ckpt.strategy_stats = none) ∧
  (st.attrs.rejection_stats = none → st.ckpt.rejection_stats = none)

theorem AttrsCkptOk_saveBatch (st : RunState) (b : List (Option PRec)) (bn : Nat)
    (h : AttrsCkptOk st) : AttrsCkptOk (saveBatchToParquet st b bn) := by
  unfold AttrsCkptOk
  rw [(saveBatchToParquet_spec st b bn).2.1, (saveBatchToParquet_spec st b bn).2.2.1]
  exact h

theorem AttrsCkptOk_saveCheckpointFile (st : RunState) (h : AttrsCkptOk st) :
    AttrsCkptOk (saveCheckpointFile st) := by
  obtain ⟨h1, h2⟩ := h
  unfold AttrsCkptOk saveCheckpointFile savedCheckpoint
  dsimp only
  constructor
  · intro hn; rw [hn]; exact h1 hn
  · intro hn; rw [hn]; exact h2 hn

theorem AttrsCkptOk_stepItem (item : RawItem) (g : GraphOutcome) (idx : Nat)
    (st : RunState) (h : AttrsCkptOk st) : AttrsCkptOk (stepItem item g idx st) := by
  obtain ⟨h1, h2⟩ := h
  obtain ⟨m1, m2⟩ := processItem_attrs_mono st.attrs item g
  have hcore : AttrsCkptOk (stepCore item g idx st) := by
    unfold AttrsCkptOk stepCore
    dsimp only
    exact ⟨fun hn => h1 (m1 hn), fun hn => h2 (m2 hn)⟩
  unfold stepItem
  dsimp only
  split
  · unfold stepFlush
    apply AttrsCkptOk_saveCheckpointFile
    have := AttrsCkptOk_saveBatch (stepCore item g idx st)
      (stepCore item g idx st).current_batch (stepCore item g idx st).batch_num hcore
    exact this
  · exact hcore

theorem AttrsCkptOk_runLoop (data : Nat → RawItem) (g : Nat → GraphOutcome) :
    ∀ (n idx : Nat) (st : RunState), AttrsCkptOk st →
      AttrsCkptOk (runLoop data g n idx st).1 := by
  intro n
  induction n with
  | zero => intro idx st h; simpa [runLoop] using h
  | succ m ih =>
    intro idx st h
    by_cases hg : g idx = GraphOutcome.intr
    · simpa [runLoop, hg] using h
    · have hloop : runLoop data g (m + 1) idx st =
          runLoop data g m (idx + 1) (stepItem (data idx) (g idx) idx st) := by
        simp only [runLoop]
        rw [if_neg hg]
      rw [hloop]
      exact ih _ _ (AttrsCkptOk_stepItem _ _ _ _ h)

/-- Under the invariant, the final checkpoint save writes stats keys equal
to the stats attributes. -/
theorem saveCheckpointFile_stats (st : RunState) (h : AttrsCkptOk st) :
    (saveCheckpointFile st).ckpt.strategy_stats = st.attrs.strategy_stats ∧
    (saveCheckpointFile st).ckpt.rejection_stats = st.attrs.rejection_stats := by
  obtain ⟨h1, h2⟩ := h
  unfold saveCheckpointFile savedCheckpoint
  dsimp only
  constructor
  · cases hs : st.attrs.strategy_stats with
    | none => simpa using (h1 hs).symm ▸ rfl
    | some v => rfl
  · cases hs : st.attrs.rejection_stats with
    | none => simpa using (h2 hs).symm ▸ rfl
    | some v => rfl

/-- Characterization of a graceful (interrupt-free) `process` run: it
completes, the artifacts contain exactly the successful per-item records,
the counters advance by the item count and the `None` count, the attributes
are threaded as by `procSeq`, the final index is the last processed one, and
the final checkpoint file holds the final in-memory dictionary. -/
theorem processRun_spec (data : Nat → RawItem) (g : Nat → GraphOutcome) (N : Nat)
    (c0 : CheckpointData) (a0 : Attrs) (f0 : CkptFile) (resume : Bool)
    (start : Nat) (hstart : start = (if resume then (c0.last_processed_index + 1).toNat else 0))
    (hni : ∀ t, t < N - start → g (start + t) ≠ GraphOutcome.intr) :
    (processRun data g N c0 a0 f0 resume).2 = false ∧
    flatRecords (processRun data g N c0 a0 f0 resume).1.artifacts =
      successfulRecords (procSeq data g (N - start) start a0).1 ∧
    (processRun data g N c0 a0 f0 resume).1.ckpt.processed_count =
      c0.processed_count + (N - start) ∧
    (processRun data g N c0 a0 f0 resume).1.ckpt.rejected_count =
      c0.rejected_count + countNone (procSeq data g (N - start) start a0).1 ∧
    (processRun data g N c0 a0 f0 resume).1.attrs = (procSeq data g (N - start) start a0).2 ∧
    (processRun data g N c0 a0 f0 resume).1.ckpt.last_processed_index =
      (if N - start = 0 then c0.last_processed_index
       else ((start + (N - start) - 1 : Nat) : Int)) ∧
    (processRun data g N c0 a0 f0 resume).1.file =
      CkptFile.valid (processRun data g N c0 a0 f0 resume).1.ckpt := by
  subst hstart
  simp only [processRun]
  set start := (if resume then (c0.last_processed_index + 1).toNat else 0 : Nat) with hs
  set st0 : RunState :=
    { ckpt := c0, attrs := a0, file := f0,
      current_batch := [], batch_num := start / BATCH_SIZE,
      artifacts := [], batch_stats := [] } with hst0
  obtain ⟨l1, l2, l3, l4, l5, l6⟩ := runLoop_spec data g (N - start) start st0 hni
  rw [l1]
  set L := (runLoop data g (N - start) start st0).1 with hL
  have hout0 : outFlat st0 = [] := rfl
  have hattrs0 : st0.attrs = a0 := rfl
  rw [hattrs0] at l2 l4 l5
  rw [hout0] at l5
  simp only [List.nil_append] at l5
  have hst1 : ∀ st1 : RunState,
      (flatRecords st1.artifacts = outFlat L ∧ st1.ckpt = L.ckpt ∧ st1.attrs = L.attrs) →
      (flatRecords (saveCheckpointFile st1).artifacts =
          successfulRecords (procSeq data g (N - start) start a0).1 ∧
        (saveCheckpointFile st1).ckpt.processed_count = c0.processed_count + (N - start) ∧
        (saveCheckpointFile st1).ckpt.rejected_count =
          c0.rejected_count + countNone (procSeq data g (N - start) start a0).1 ∧
        (saveCheckpointFile st1).attrs = (procSeq data g (N - start) start a0).2 ∧
        (saveCheckpointFile st1).ckpt.last_processed_index =
          (if N - start = 0 then c0.last_processed_index
           else ((start + (N - start) - 1 : Nat) : Int)) ∧
        (saveCheckpointFile st1).file = CkptFile.valid (saveCheckpointFile st1).ckpt) := by
    intro st1 ⟨hf, hc, ha⟩
    obtain ⟨p1, p2, p3⟩ := savedCheckpoint_counts st1.attrs st1.ckpt
    unfold saveCheckpointFile
    dsimp only
    refine ⟨?_, ?_, ?_, ?_, ?_, rfl⟩
    · rw [hf, l5]
    · rw [p2, hc, l3]
    · rw [p3, hc, l4]
    · rw [ha, l2]
    · rw [p1, hc, l6]
  rw [if_neg Bool.false_ne_true]
  split
  · rename_i hbe
    refine ⟨rfl, hst1 L ⟨?_, rfl, rfl⟩⟩
    have : L.current_batch = [] := List.isEmpty_iff.mp hbe
    unfold outFlat
    rw [this]
    simp [successfulRecords]
  · obtain ⟨q1, q2, q3, q4, q5, q6⟩ :=
      saveBatchToParquet_spec L L.current_batch L.batch_num
    refine ⟨rfl, hst1 _ ⟨?_, q2, q3⟩⟩
    rw [q1]
    exact rfl

/-- In a graceful run whose initial state satisfies the dictionary/attribute
implication, the final saved checkpoint's stats keys equal the final stats
attributes. -/
theorem processRun_file_stats (data : Nat → RawItem) (g : Nat → GraphOutcome) (N : Nat)
    (c0 : CheckpointData) (a0 : Attrs) (f0 : CkptFile) (resume : Bool)
    (h1 : a0.strategy_stats = none → c0.strategy_stats = none)
    (h2 : a0.rejection_stats = none → c0.rejection_stats = none)
    (start : Nat) (hstart : start = (if resume then (c0.last_processed_index + 1).toNat else 0))
    (hni : ∀ t, t < N - start → g (start + t) ≠ GraphOutcome.intr) :
    (processRun data g N c0 a0 f0 resume).1.ckpt.strategy_stats =
      (processRun data g N c0 a0 f0 resume).1.attrs.strategy_stats ∧
    (processRun data g N c0 a0 f0 resume).1.ckpt.rejection_stats =
      (processRun data g N c0 a0 f0 resume).1.attrs.rejection_stats := by
  subst hstart
  simp only [processRun]
  set start := (if resume then (c0.last_processed_index + 1).toNat else 0 : Nat) with hs
  set st0 : RunState :=
    { ckpt := c0, attrs := a0, file := f0,
      current_batch := [], batch_num := start / BATCH_SIZE,
      artifacts := [], batch_stats := [] } with hst0
  have hInv0 : AttrsCkptOk st0 := ⟨h1, h2⟩
  have l1 := (runLoop_spec data g (N - start) start st0 hni).1
  have hInvL := AttrsCkptOk_runLoop data g (N - start) start st0 hInv0
  rw [l1, if_neg Bool.false_ne_true]
  split
  · exact saveCheckpointFile_stats _ hInvL
  · exact saveCheckpointFile_stats _ (AttrsCkptOk_saveBatch _ _ _ hInvL)

/-- Loading a valid checkpoint file into a freshly constructed processor
returns the stored dictionary and restores exactly its stats keys. -/
theorem loadCheckpoint_valid_fresh (c : CheckpointData) :
    loadCheckpoint (CkptFile.valid c) ⟨none, none⟩ =
      Except.ok (c, ⟨c.strategy_stats, c.rejection_stats⟩) := by
  rcases c with ⟨lpi, pc, rc, ss, rs⟩
  cases ss <;> cases rs <;> rfl

/-- C2: resumability.  For every input, every `0 < k < N` and every
deterministic per-item outcome function (no interrupts), an uninterrupted
fresh run over `[0, N)` produces the same accepted output records (the
concatenation of all written artifacts), the same `processed_count` and the
same `rejected_count` as a fresh run over `[0, k)` to graceful completion
followed by a second run constructed by loading the saved checkpoint file
(`start_index = last_processed_index + 1`, `resume = True`) over the full
input of `N` items. -/
theorem c2_resumability (data : Nat → RawItem) (g : Nat → GraphOutcome) (N k : Nat)
    (hk0 : 0 < k) (hkN : k < N)
    (hni : ∀ t, t < N → g t ≠ GraphOutcome.intr)
    (c1 : CheckpointData) (a1 : Attrs)
    (hload : loadCheckpoint (freshRun data g k).1.file ⟨none, none⟩ = Except.ok (c1, a1)) :
    flatRecords (freshRun data g k).1.artifacts ++
      flatRecords (processRun data g N c1 a1 (freshRun data g k).1.file true).1.artifacts =
      flatRecords (freshRun data g N).1.artifacts ∧
    (processRun data g N c1 a1 (freshRun data g k).1.file true).1.ckpt.processed_count =
      (freshRun data g N).1.ckpt.processed_count ∧
    (processRun data g N c1 a1 (freshRun data g k).1.file true).1.ckpt.rejected_count =
      (freshRun data g N).1.ckpt.rejected_count := by
  simp only [freshRun] at hload ⊢
  have hni1 : ∀ t, t < k - 0 → g (0 + t) ≠ GraphOutcome.intr := by
    intro t ht; simpa using hni t (by omega)
  have hniN : ∀ t, t < N - 0 → g (0 + t) ≠ GraphOutcome.intr := by
    intro t ht; simpa using hni t (by omega)
  obtain ⟨r1a, r1flat, r1proc, r1rej, r1attrs, r1lpi, r1file⟩ :=
    processRun_spec data g k freshCheckpoint ⟨none, none⟩ CkptFile.absent true 0 rfl hni1
  obtain ⟨fs1, fs2⟩ :=
    processRun_file_stats data g k freshCheckpoint ⟨none, none⟩ CkptFile.absent true
      (fun _ => rfl) (fun _ => rfl) 0 rfl hni1
  obtain ⟨sa, sflat, sproc, srej, sattrs, slpi, sfile⟩ :=
    processRun_spec data g N freshCheckpoint ⟨none, none⟩ CkptFile.absent true 0 rfl hniN
  simp only [Nat.sub_zero, Nat.zero_add] at r1flat r1proc r1rej r1attrs r1lpi sflat sproc srej sattrs slpi
  rw [r1file, loadCheckpoint_valid_fresh] at hload
  simp only [Except.ok.injEq, Prod.mk.injEq] at hload
  obtain ⟨hc1, ha1⟩ := hload
  have hc1s : c1 = (processRun data g k freshCheckpoint ⟨none, none⟩ CkptFile.absent true).1.ckpt :=
    hc1.symm
  have ha1s : a1 = (processRun data g k freshCheckpoint ⟨none, none⟩ CkptFile.absent true).1.attrs := by
    rw [← ha1, fs1, fs2]
  have ha1seq : a1 = (procSeq data g k 0 ⟨none, none⟩).2 := ha1s.trans r1attrs
  have hfp : freshCheckpoint.processed_count = 0 := rfl
  have hfr : freshCheckpoint.rejected_count = 0 := rfl
  have hlpi : c1.last_processed_index = ((k - 1 : Nat) : Int) := by
    rw [hc1s, r1lpi, if_neg (by omega)]
  have hstart2 : k = (if (true : Bool) then (c1.last_processed_index + 1).toNat else 0) := by
    rw [if_pos rfl, hlpi]
    omega
  have hni2 : ∀ t, t < N - k → g (k + t) ≠ GraphOutcome.intr := by
    intro t ht; exact hni (k + t) (by omega)
  obtain ⟨r2a, r2flat, r2proc, r2rej, r2attrs, r2lpi, r2file⟩ :=
    processRun_spec data g N c1 a1
      (processRun data g k freshCheckpoint ⟨none, none⟩ CkptFile.absent true).1.file true
      k hstart2 hni2
  obtain ⟨pa, pb⟩ := procSeq_add data g k (N - k) 0 ⟨none, none⟩
  have hkn : k + (N - k) = N := by omega
  rw [hkn] at pa pb
  simp only [Nat.zero_add] at pa pb
  rw [ha1seq] at r2flat r2proc r2rej ⊢
  refine ⟨?_, ?_, ?_⟩
  · rw [r1flat, r2flat, sflat, pa, successfulRecords_append]
  · rw [r2proc, sproc, hc1s, r1proc, hfp]
    omega
  · rw [r2rej, srej, hc1s, r1rej, hfr, pa, countNone_append]
    omega

/-- Concrete input record for the C2 witness. -/
def c2WItem : RawItem := ⟨"idA", "NameA", "a description", "2024", "plot(close)"⟩

/-- Concrete input sequence for the C2 witness. -/
def c2WData : Nat → RawItem := fun _ => c2WItem

/-- Concrete accepted graph outcome for the C2 witness. -/
def c2WRes : GraphResult :=
  { status := "reasoning_added", augmented_description := "ad", reasoning := "r",
    converted_code := "cc", relevant_symbols := ["BTC"],
    validation_result := true, rejection_reason := "" }

/-- Concrete outcome function for the C2 witness. -/
def c2WG : Nat → GraphOutcome := fun _ => GraphOutcome.ok c2WRes

/-- The checkpoint dictionary the C2 witness run saves after one item. -/
def c2WCkpt : CheckpointData := ⟨0, 1, 0, some initStratStats, some initRejStats⟩

/-- The stats attributes the C2 witness run ends with. -/
def c2WAttrs : Attrs := ⟨some initStratStats, some initRejStats⟩

/-- C2 witness: resumability evaluated at a concrete two-item input split at
`k = 1`. -/
theorem c2_resumability_witness :
    ((0 : Nat) < 1 ∧ (1 : Nat) < 2 ∧ (∀ t, t < 2 → c2WG t ≠ GraphOutcome.intr) ∧
      loadCheckpoint (freshRun c2WData c2WG 1).1.file ⟨none, none⟩ =
        Except.ok (c2WCkpt, c2WAttrs)) ∧
    (flatRecords (freshRun c2WData c2WG 1).1.artifacts ++
        flatRecords (processRun c2WData c2WG 2 c2WCkpt c2WAttrs
          (freshRun c2WData c2WG 1).1.file true).1.artifacts =
        flatRecords (freshRun c2WData c2WG 2).1.artifacts ∧
      (processRun c2WData c2WG 2 c2WCkpt c2WAttrs
          (freshRun c2WData c2WG 1).1.file true).1.ckpt.processed_count =
        (freshRun c2WData c2WG 2).1.ckpt.processed_count ∧
      (processRun c2WData c2WG 2 c2WCkpt c2WAttrs
          (freshRun c2WData c2WG 1).1.file true).1.ckpt.rejected_count =
        (freshRun c2WData c2WG 2).1.ckpt.rejected_count) :=
  ⟨⟨by decide, by decide, by decide, by rfl⟩,
   c2_resumability c2WData c2WG 2 1 (by decide) (by decide)
     (by decide) c2WCkpt c2WAttrs (by rfl)⟩

/-! ### Batch counting in the all-accepted case -/

/-- Every buffer entry is an accepted record with truthy id and name. -/
def goodBatch (l : List (Option PRec)) : Prop :=
  ∀ o ∈ l, ∃ r, o = some r ∧ goodRec r = true

theorem successfulRecords_length_allgood :
    ∀ l : List (Option PRec), goodBatch l → (successfulRecords l).length = l.length := by
  intro l
  induction l with
  | nil => intro _; rfl
  | cons o t ih =>
    intro h
    obtain ⟨r, ho, hr⟩ := h o (List.mem_cons_self o t)
    subst ho
    have ht := ih (fun x hx => h x (List.mem_cons_of_mem _ hx))
    simp only [successfulRecords, List.filterMap_cons] at ht ⊢
    rw [hr]
    simp only [if_true, List.length_cons]
    omega

/-- Flushing a nonempty all-good buffer writes exactly one artifact. -/
theorem saveBatchToParquet_allgood (st : RunState) (b : List (Option PRec)) (bn : Nat)
    (hne : b ≠ []) (hgood : goodBatch b) :
    (saveBatchToParquet st b bn).artifacts.length = st.artifacts.length + 1 := by
  simp only [saveBatchToParquet]
  rw [if_neg (by simpa [List.isEmpty_iff] using hne)]
  have hlen := successfulRecords_length_allgood b hgood
  have hsne : ¬(successfulRecords b).isEmpty = true := by
    rw [List.isEmpty_iff]
    intro hc
    rw [hc] at hlen
    exact hne (List.length_eq_zero.mp hlen.symm)
  rw [if_neg hsne]
  simp

/-- The all-accepted loop: with every item accepted and well-keyed, the loop
never interrupts, writes one artifact per full buffer of `BATCH_SIZE` items,
and leaves `(c + n) % BATCH_SIZE` items buffered. -/
theorem runLoop_allgood (data : Nat → RawItem) (g : Nat → GraphOutcome) :
    ∀ (n idx : Nat) (st : RunState),
      goodBatch st.current_batch →
      st.current_batch.length < BATCH_SIZE →
      (∀ t, t < n → ∀ a : Attrs, ∃ r,
        (processItem a (data (idx + t)) (g (idx + t))).2 = some r ∧ goodRec r = true) →
      (runLoop data g n idx st).2 = false ∧
      (runLoop data g n idx st).1.artifacts.length =
        st.artifacts.length + (st.current_batch.length + n) / BATCH_SIZE ∧
      (runLoop data g n idx st).1.current_batch.length =
        (st.current_batch.length + n) % BATCH_SIZE ∧
      goodBatch (runLoop data g n idx st).1.current_batch := by
  have hB : BATCH_SIZE = 10 := rfl
  intro n
  induction n with
  | zero =>
    intro idx st hgb hlen _
    simp only [runLoop]
    rw [hB] at hlen ⊢
    exact ⟨trivial, by omega, by omega, hgb⟩
  | succ m ih =>
    intro idx st hgb hlen hacc
    obtain ⟨r0, hr0, hg0⟩ := hacc 0 (by omega) st.attrs
    rw [Nat.add_zero] at hr0
    have hgintr : g idx ≠ GraphOutcome.intr := by
      intro hc
      rw [hc] at hr0
      simp [processItem] at hr0
    have hloop : runLoop data g (m + 1) idx st =
        runLoop data g m (idx + 1) (stepItem (data idx) (g idx) idx st) := by
      simp only [runLoop]
      rw [if_neg hgintr]
    rw [hloop]
    have hacc2 : ∀ t, t < m → ∀ a : Attrs, ∃ r,
        (processItem a (data (idx + 1 + t)) (g (idx + 1 + t))).2 = some r ∧ goodRec r = true := by
      intro t ht a
      have := hacc (t + 1) (by omega) a
      have he : idx + (t + 1) = idx + 1 + t := by omega
      rw [he] at this
      exact this
    have hcore_batch : (stepCore (data idx) (g idx) idx st).current_batch =
        st.current_batch ++ [some r0] := by
      unfold stepCore
      dsimp only
      rw [hr0]
    have hgb2 : goodBatch (st.current_batch ++ [some r0]) := by
      intro o ho
      rcases List.mem_append.mp ho with h | h
      · exact hgb o h
      · refine ⟨r0, ?_, hg0⟩
        simpa using h
    by_cases hfull : BATCH_SIZE ≤ st.current_batch.length + 1
    · have hstep : stepItem (data idx) (g idx) idx st =
          stepFlush (stepCore (data idx) (g idx) idx st) := by
        unfold stepItem
        rw [if_pos (by rw [hcore_batch]; simpa using hfull)]
      rw [hstep]
      have hfb : (stepFlush (stepCore (data idx) (g idx) idx st)).current_batch = [] := rfl
      have hfa : (stepFlush (stepCore (data idx) (g idx) idx st)).artifacts.length =
          st.artifacts.length + 1 := by
        unfold stepFlush
        dsimp only
        have hsb := saveBatchToParquet_allgood (stepCore (data idx) (g idx) idx st)
          (stepCore (data idx) (g idx) idx st).current_batch
          (stepCore (data idx) (g idx) idx st).batch_num
          (by rw [hcore_batch]; simp) (by rw [hcore_batch]; exact hgb2)
        unfold saveCheckpointFile
        dsimp only
        rw [hsb]
        exact rfl
      obtain ⟨i1, i2, i3, i4⟩ := ih (idx + 1) (stepFlush (stepCore (data idx) (g idx) idx st))
        (by rw [hfb]; intro o ho; simp at ho) (by rw [hfb]; simp [hB]) hacc2
      refine ⟨i1, ?_, ?_, i4⟩
      · rw [i2, hfa, hfb]
        simp only [List.length_nil]
        rw [hB] at hfull hlen ⊢
        omega
      · rw [i3, hfb]
        simp only [List.length_nil]
        rw [hB] at hfull hlen ⊢
        omega
    · have hstep : stepItem (data idx) (g idx) idx st =
          stepCore (data idx) (g idx) idx st := by
        unfold stepItem
        rw [if_neg (by rw [hcore_batch]; simpa using hfull)]
      rw [hstep]
      obtain ⟨i1, i2, i3, i4⟩ := ih (idx + 1) (stepCore (data idx) (g idx) idx st)
        (by rw [hcore_batch]; exact hgb2) (by rw [hcore_batch]; simpa using hfull) hacc2
      have hca : (stepCore (data idx) (g idx) idx st).artifacts = st.artifacts := rfl
      refine ⟨i1, ?_, ?_, i4⟩
      · rw [i2, hca, hcore_batch]
        simp only [List.length_append, List.length_cons, List.length_nil]
        rw [hB] at hfull hlen ⊢
        omega
      · rw [i3, hcore_batch]
        simp only [List.length_append, List.length_cons, List.length_nil]
        rw [hB] at hfull hlen ⊢
        omega

/-- Artifact count of a graceful run in which every item is accepted and
well-keyed: one artifact per full buffer plus one for the final partial
flush. -/
theorem processRun_allgood (data : Nat → RawItem) (g : Nat → GraphOutcome) (N : Nat)
    (c0 : CheckpointData) (a0 : Attrs) (f0 : CkptFile) (resume : Bool)
    (start : Nat) (hstart : start = (if resume then (c0.last_processed_index + 1).toNat else 0))
    (hacc : ∀ t, t < N - start → ∀ a : Attrs, ∃ r,
      (processItem a (data (start + t)) (g (start + t))).2 = some r ∧ goodRec r = true) :
    (processRun data g N c0 a0 f0 resume).1.artifacts.length =
      (N - start) / BATCH_SIZE + (if (N - start) % BATCH_SIZE = 0 then 0 else 1) := by
  have hB : BATCH_SIZE = 10 := rfl
  subst hstart
  simp only [processRun]
  set start := (if resume then (c0.last_processed_index + 1).toNat else 0 : Nat) with hs
  set st0 : RunState :=
    { ckpt := c0, attrs := a0, file := f0,
      current_batch := [], batch_num := start / BATCH_SIZE,
      artifacts := [], batch_stats := [] } with hst0
  obtain ⟨l1, l2, l3, l4⟩ := runLoop_allgood data g (N - start) start st0
    (by intro o ho; simp [hst0] at ho) (by rw [hst0]; simp [hB]) hacc
  rw [l1, if_neg Bool.false_ne_true]
  set L := (runLoop data g (N - start) start st0).1 with hL
  have ha0 : st0.artifacts.length = 0 := rfl
  have hb0 : st0.current_batch.length = 0 := rfl
  rw [ha0, hb0] at l2
  rw [hb0] at l3
  simp only [Nat.zero_add] at l2 l3
  split
  · rename_i hbe
    have hmod : (N - start) % BATCH_SIZE = 0 := by
      have := List.isEmpty_iff.mp hbe
      rw [this] at l3
      simpa using l3.symm
    rw [if_pos hmod]
    have hart : (saveCheckpointFile L).artifacts = L.artifacts := rfl
    rw [hart, l2]
    omega
  · rename_i hbe
    have hne : L.current_batch ≠ [] := by
      intro hc
      rw [List.isEmpty_iff] at hbe
      exact hbe hc
    have hmod : (N - start) % BATCH_SIZE ≠ 0 := by
      intro hc
      rw [hc] at l3
      exact hne (List.length_eq_zero.mp l3)
    rw [if_neg hmod]
    have hart : (saveCheckpointFile (saveBatchToParquet L L.current_batch L.batch_num)).artifacts =
        (saveBatchToParquet L L.current_batch L.batch_num).artifacts := rfl
    rw [hart, saveBatchToParquet_allgood L L.current_batch L.batch_num hne l4, l2]

/-- C3 amended: batches group `BATCH_SIZE` consecutive *processed* items
(accepted or not), so the artifact count is `ceil(M/B)` only in the special
case where every item is accepted with truthy id and name (then `M = N`);
the counterexample `c3_batch_sizing_counterexample` shows the general
interleaving statement of the claim fails. -/
theorem c3_batch_sizing_amended (data : Nat → RawItem) (g : Nat → GraphOutcome) (N : Nat)
    (h0 : 0 < N)
    (hacc : ∀ t, t < N → ∀ a : Attrs, ∃ r,
      (processItem a (data t) (g t)).2 = some r ∧ goodRec r = true) :
    (freshRun data g N).1.artifacts.length = (N + BATCH_SIZE - 1) / BATCH_SIZE := by
  have hB : BATCH_SIZE = 10 := rfl
  have hacc0 : ∀ t, t < N - 0 → ∀ a : Attrs, ∃ r,
      (processItem a (data (0 + t)) (g (0 + t))).2 = some r ∧ goodRec r = true := by
    intro t ht a
    simpa using hacc t (by omega) a
  have hpr := processRun_allgood data g N freshCheckpoint ⟨none, none⟩ CkptFile.absent true 0 rfl hacc0
  simp only [freshRun]
  rw [hpr, hB]
  simp only [Nat.sub_zero]
  by_cases hm : N % 10 = 0
  · rw [if_pos hm]; omega
  · rw [if_neg hm]; omega

/-- Input record for the C3 counterexample. -/
def c3Item : RawItem := ⟨"idB", "NameB", "d", "t", "plot(close)"⟩

/-- Accepted outcome for the C3 counterexample. -/
def c3AccRes : GraphResult :=
  { status := "reasoning_added", augmented_description := "ad", reasoning := "",
    converted_code := "cc", relevant_symbols := ["ETH"],
    validation_result := true, rejection_reason := "" }

/-- Rejected outcome for the C3 counterexample. -/
def c3RejRes : GraphResult :=
  { status := "rejected", augmented_description := "", reasoning := "",
    converted_code := "", relevant_symbols := [],
    validation_result := false, rejection_reason := "low quality" }

/-- Alternating accept/reject outcomes for the C3 counterexample. -/
def c3G : Nat → GraphOutcome :=
  fun i => if i % 2 = 0 then GraphOutcome.ok c3AccRes else GraphOutcome.ok c3RejRes

/-- C3 counterexample: 20 items, alternately accepted and rejected, so
`M = 10` accepted items with `BATCH_SIZE = 10` — the claim demands exactly
`ceil(10/10) = 1` artifact for every interleaving, but the run writes 2,
because the buffer groups `BATCH_SIZE` *processed* items (rejected ones
included as `None`) rather than accepted ones. -/
theorem c3_batch_sizing_counterexample :
    (freshRun (fun _ => c3Item) c3G 20).1.ckpt.processed_count = 20 ∧
    (freshRun (fun _ => c3Item) c3G 20).1.ckpt.rejected_count = 10 ∧
    (freshRun (fun _ => c3Item) c3G 20).1.artifacts.length = 2 ∧
    (2 : Nat) ≠ (10 + BATCH_SIZE - 1) / BATCH_SIZE := by
  refine ⟨by decide, by decide, by decide, by decide⟩

/-- Input record for the C3 amended witness. -/
def c3WItem : RawItem := ⟨"idC", "NameC", "d", "t", "plot(close)"⟩

/-- Accepted outcome for the C3 amended witness. -/
def c3WRes : GraphResult :=
  { status := "reasoning_added", augmented_description := "ad", reasoning := "",
    converted_code := "cc", relevant_symbols := [],
    validation_result := true, rejection_reason := "" }

/-- Projected record of the C3 amended witness item. -/
def c3WRec : PRec := ⟨"idC", "NameC", "ad", "", "t", "cc", ""⟩

/-- C3 amended witness: three all-accepted items give one artifact,
`ceil(3/10) = 1`. -/
theorem c3_batch_sizing_amended_witness :
    ((0 : Nat) < 3 ∧ (∀ t, t < 3 → ∀ a : Attrs, ∃ r,
      (processItem a ((fun _ => c3WItem) t) ((fun _ => GraphOutcome.ok c3WRes) t)).2 = some r ∧
        goodRec r = true)) ∧
    (freshRun (fun _ => c3WItem) (fun _ => GraphOutcome.ok c3WRes) 3).1.artifacts.length =
      (3 + BATCH_SIZE - 1) / BATCH_SIZE :=
  ⟨⟨by decide, fun _ _ _ => ⟨c3WRec, rfl, rfl⟩⟩,
   c3_batch_sizing_amended (fun _ => c3WItem) (fun _ => GraphOutcome.ok c3WRes) 3 (by decide)
     (fun _ _ _ => ⟨c3WRec, rfl, rfl⟩)⟩

/-- Accepted-but-keyless input record for the C6 counterexample. -/
def c6Item : RawItem := ⟨"", "NameD", "d", "t", "plot(close)"⟩

/-- Accepted outcome for the C6 counterexample. -/
def c6Res : GraphResult :=
  { status := "reasoning_added", augmented_description := "ad", reasoning := "",
    converted_code := "cc", relevant_symbols := [],
    validation_result := true, rejection_reason := "" }

/-- C6 counterexample: an item that reaches the accepted terminal state (its
projection is buffered) but lacks a truthy id is dropped by the
`successful_records` filter, so the union of flushed artifacts does not
contain all accepted items. -/
theorem c6_output_purity_counterexample :
    (processItem ⟨none, none⟩ c6Item (GraphOutcome.ok c6Res)).2 =
      some ⟨"", "NameD", "ad", "", "t", "cc", ""⟩ ∧
    flatRecords (freshRun (fun _ => c6Item) (fun _ => GraphOutcome.ok c6Res) 1).1.artifacts = [] :=
  ⟨rfl, by decide⟩

/-- C6 amended: the union of all flushed artifacts equals, in stable input
order, exactly the accepted items whose projected records carry truthy `id`
and `name`; rejected or errored items never appear (they enter the buffer as
`None` and are filtered out by `successful_records`). -/
theorem c6_output_purity_amended (data : Nat → RawItem) (g : Nat → GraphOutcome) (N : Nat)
    (hni : ∀ t, t < N → g t ≠ GraphOutcome.intr) :
    flatRecords (freshRun data g N).1.artifacts =
      successfulRecords (procSeq data g N 0 ⟨none, none⟩).1 := by
  have hni0 : ∀ t, t < N - 0 → g (0 + t) ≠ GraphOutcome.intr := by
    intro t ht; simpa using hni t (by omega)
  have h := (processRun_spec data g N freshCheckpoint ⟨none, none⟩ CkptFile.absent true 0 rfl hni0).2.1
  simp only [Nat.sub_zero, Nat.zero_add] at h
  simpa only [freshRun] using h

/-- Input record for the C6 amended witness. -/
def c6WItem : RawItem := ⟨"idE", "NameE", "d", "t", "plot(close)"⟩

/-- C6 amended witness: concrete one-item accepted run. -/
theorem c6_output_purity_amended_witness :
    (∀ t, t < 1 → (fun _ => GraphOutcome.ok c6Res) t ≠ GraphOutcome.intr) ∧
    flatRecords (freshRun (fun _ => c6WItem) (fun _ => GraphOutcome.ok c6Res) 1).1.artifacts =
      successfulRecords (procSeq (fun _ => c6WItem) (fun _ => GraphOutcome.ok c6Res) 1 0 ⟨none, none⟩).1 :=
  ⟨by decide, c6_output_purity_amended (fun _ => c6WItem) (fun _ => GraphOutcome.ok c6Res) 1 (by decide)⟩

/-- Accepted-but-keyless input record for C9. -/
def c9Item : RawItem := ⟨"", "NameF", "d", "t", "plot(close)"⟩

/-- Accepted outcome for C9. -/
def c9Res : GraphResult :=
  { status := "reasoning_added", augmented_description := "ad", reasoning := "",
    converted_code := "cc", relevant_symbols := [],
    validation_result := true, rejection_reason := "" }

/-- C9: an accepted item whose raw record lacks a truthy `id` is silently
excluded from the flushed artifact (the `successful_records` filter drops
it) while still counted as processed and not rejected, so the number of
written records (0) is strictly less than
`processed_count - rejected_count = 1`. -/
theorem c9_silent_exclusion :
    (processItem ⟨none, none⟩ c9Item (GraphOutcome.ok c9Res)).2 =
      some ⟨"", "NameF", "ad", "", "t", "cc", ""⟩ ∧
    goodRec ⟨"", "NameF", "ad", "", "t", "cc", ""⟩ = false ∧
    (freshRun (fun _ => c9Item) (fun _ => GraphOutcome.ok c9Res) 1).1.ckpt.processed_count = 1 ∧
    (freshRun (fun _ => c9Item) (fun _ => GraphOutcome.ok c9Res) 1).1.ckpt.rejected_count = 0 ∧
    flatRecords (freshRun (fun _ => c9Item) (fun _ => GraphOutcome.ok c9Res) 1).1.artifacts = [] ∧
    (List.length (flatRecords (freshRun (fun _ => c9Item) (fun _ => GraphOutcome.ok c9Res) 1).1.artifacts) < 1 - 0) :=
  ⟨rfl, rfl, by decide, by decide, by decide, by decide⟩

theorem procSeq_length (data : Nat → RawItem) (g : Nat → GraphOutcome) :
    ∀ (n idx : Nat) (a : Attrs), (procSeq data g n idx a).1.length = n := by
  intro n
  induction n with
  | zero => intro idx a; rfl
  | succ m ih =>
    intro idx a
    simp only [procSeq, List.length_cons]
    rw [ih]

/-- Input record for the C8 counterexample. -/
def c8Item : RawItem := ⟨"idG", "NameG", "d", "t", "plot(close)"⟩

/-- Accepted outcome used alongside the exception in C8. -/
def c8Res : GraphResult :=
  { status := "reasoning_added", augmented_description := "ad", reasoning := "",
    converted_code := "cc", relevant_symbols := [],
    validation_result := true, rejection_reason := "" }

/-- C8 counterexample: the per-item exception handler discards the exception
text.  Two runs whose item 0 raises different exception messages produce
bit-for-bit identical final run states (the rejection statistics are four
integer tallies with no text field), so the exception text is not recorded
as the item's rejection reason anywhere. -/
theorem c8_exception_text_counterexample :
    (fun i => if i = 0 then GraphOutcome.exc "boom" else GraphOutcome.ok c8Res) 0 ≠
      (fun i => if i = 0 then GraphOutcome.exc "zap" else GraphOutcome.ok c8Res) 0 ∧
    freshRun (fun _ => c8Item)
        (fun i => if i = 0 then GraphOutcome.exc "boom" else GraphOutcome.ok c8Res) 2 =
      freshRun (fun _ => c8Item)
        (fun i => if i = 0 then GraphOutcome.exc "zap" else GraphOutcome.ok c8Res) 2 :=
  ⟨by decide, by decide⟩

/-- C8 amended: when `graph.invoke` raises an `Exception` for item `i`, the
orchestrator catches it at the per-item boundary inside `_process_item`,
marks the item rejected (its result is `None`, counted in `rejected_count`
and tallied under the `other` rejection bucket), discards the exception
text, and continues processing the remaining items, so the run still
completes gracefully over all `N` items. -/
theorem c8_exception_isolation_amended (data : Nat → RawItem) (g : Nat → GraphOutcome)
    (N i : Nat) (msg : String) (hi : i < N)
    (hexc : g i = GraphOutcome.exc msg)
    (hni : ∀ t, t < N → g t ≠ GraphOutcome.intr) :
    (freshRun data g N).2 = false ∧
    (freshRun data g N).1.ckpt.processed_count = N ∧
    (procSeq data g N 0 ⟨none, none⟩).1[i]? = some none ∧
    (freshRun data g N).1.ckpt.rejected_count = countNone (procSeq data g N 0 ⟨none, none⟩).1 ∧
    1 ≤ countNone (procSeq data g N 0 ⟨none, none⟩).1 := by
  have hni0 : ∀ t, t < N - 0 → g (0 + t) ≠ GraphOutcome.intr := by
    intro t ht; simpa using hni t (by omega)
  obtain ⟨p1, p2, p3, p4, p5, p6, p7⟩ :=
    processRun_spec data g N freshCheckpoint ⟨none, none⟩ CkptFile.absent true 0 rfl hni0
  simp only [Nat.sub_zero, Nat.zero_add] at p3 p4
  have hfp : freshCheckpoint.processed_count = 0 := rfl
  have hfr : freshCheckpoint.rejected_count = 0 := rfl
  obtain ⟨pa, pb⟩ := procSeq_add data g i (N - i) 0 ⟨none, none⟩
  have hiN : i + (N - i) = N := by omega
  rw [hiN] at pa pb
  simp only [Nat.zero_add] at pa pb
  obtain ⟨m, hm⟩ : ∃ m, N - i = m + 1 := ⟨N - i - 1, by omega⟩
  have hseg : (procSeq data g (N - i) i (procSeq data g i 0 ⟨none, none⟩).2).1 =
      none :: (procSeq data g m (i + 1)
        (processItem (procSeq data g i 0 ⟨none, none⟩).2 (data i) (g i)).1).1 := by
    rw [hm]
    simp only [procSeq]
    rw [hexc]
    rfl
  have hget : (procSeq data g N 0 ⟨none, none⟩).1[i]? = some none := by
    rw [pa]
    rw [List.getElem?_append_right (by rw [procSeq_length])]
    rw [procSeq_length]
    rw [Nat.sub_self, hseg]
    exact List.getElem?_cons_zero
  have hcnt : 1 ≤ countNone (procSeq data g N 0 ⟨none, none⟩).1 := by
    rw [pa, countNone_append, hseg, countNone_cons]
    simp only [Option.isNone_none, if_true]
    omega
  refine ⟨?_, ?_, hget, ?_, hcnt⟩
  · simpa only [freshRun] using p1
  · simp only [freshRun]
    rw [p3, hfp]
    omega
  · simp only [freshRun]
    rw [p4, hfr]
    omega

/-- Concrete outcomes for the C8 amended witness: item 0 raises, item 1 is
accepted. -/
def c8WG : Nat → GraphOutcome :=
  fun i => if i = 0 then GraphOutcome.exc "ValueError: bad record" else GraphOutcome.ok c8Res

/-- C8 amended witness: a two-item run whose first item raises. -/
theorem c8_exception_isolation_amended_witness :
    ((0 : Nat) < 2 ∧ c8WG 0 = GraphOutcome.exc "ValueError: bad record" ∧
      (∀ t, t < 2 → c8WG t ≠ GraphOutcome.intr)) ∧
    ((freshRun (fun _ => c8Item) c8WG 2).2 = false ∧
     (freshRun (fun _ => c8Item) c8WG 2).1.ckpt.processed_count = 2 ∧
     (procSeq (fun _ => c8Item) c8WG 2 0 ⟨none, none⟩).1[0]? = some none ∧
     (freshRun (fun _ => c8Item) c8WG 2).1.ckpt.rejected_count =
       countNone (procSeq (fun _ => c8Item) c8WG 2 0 ⟨none, none⟩).1 ∧
     1 ≤ countNone (procSeq (fun _ => c8Item) c8WG 2 0 ⟨none, none⟩).1) :=
  ⟨⟨by decide, by decide, by decide⟩,
   c8_exception_isolation_amended (fun _ => c8Item) c8WG 2 0 "ValueError: bad record"
     (by decide) (by decide) (by decide)⟩

/-- A `KeyboardInterrupt` at offset `j` stops the loop exactly there: the
result is the state after the first `j` items, flagged interrupted. -/
theorem runLoop_interrupt (data : Nat → RawItem) (g : Nat → GraphOutcome) :
    ∀ (j n idx : Nat) (st : RunState), j < n →
      (∀ t, t < j → g (idx + t) ≠ GraphOutcome.intr) →
      g (idx + j) = GraphOutcome.intr →
      runLoop data g n idx st = ((runLoop data g j idx st).1, true) := by
  intro j
  induction j with
  | zero =>
    intro n idx st hj h0 hintr
    obtain ⟨m, rfl⟩ : ∃ m, n = m + 1 := ⟨n - 1, by omega⟩
    rw [Nat.add_zero] at hintr
    simp only [runLoop]
    rw [if_pos hintr]
  | succ k ih =>
    intro n idx st hj hfirst hintr
    obtain ⟨m, rfl⟩ : ∃ m, n = m + 1 := ⟨n - 1, by omega⟩
    have hg : g idx ≠ GraphOutcome.intr := by simpa using hfirst 0 (by omega)
    have hL : runLoop data g (m + 1) idx st =
        runLoop data g m (idx + 1) (stepItem (data idx) (g idx) idx st) := by
      simp only [runLoop]
      rw [if_neg hg]
    have hR : runLoop data g (k + 1) idx st =
        runLoop data g k (idx + 1) (stepItem (data idx) (g idx) idx st) := by
      simp only [runLoop]
      rw [if_neg hg]
    rw [hL, hR]
    refine ih m (idx + 1) (stepItem (data idx) (g idx) idx st) (by omega) ?_ ?_
    · intro t ht
      have := hfirst (t + 1) (by omega)
      rwa [show idx + (t + 1) = idx + 1 + t by omega] at this
    · rwa [show idx + 1 + k = idx + (k + 1) by omega]

/-- `process` under a `KeyboardInterrupt`: the finalization (final flush,
final checkpoint save, report) is skipped and the result is exactly the loop
state at the interrupt, flagged interrupted. -/
theorem processRun_interrupt (data : Nat → RawItem) (g : Nat → GraphOutcome) (N : Nat)
    (c0 : CheckpointData) (a0 : Attrs) (f0 : CkptFile) (resume : Bool)
    (start j : Nat)
    (hstart : start = (if resume then (c0.last_processed_index + 1).toNat else 0))
    (hj : j < N - start)
    (hfirst : ∀ t, t < j → g (start + t) ≠ GraphOutcome.intr)
    (hintr : g (start + j) = GraphOutcome.intr) :
    processRun data g N c0 a0 f0 resume =
      ((runLoop data g j start
        { ckpt := c0, attrs := a0, file := f0,
          current_batch := [], batch_num := start / BATCH_SIZE,
          artifacts := [], batch_stats := [] }).1, true) := by
  subst hstart
  simp only [processRun]
  rw [runLoop_interrupt data g j (N - (if resume then (c0.last_processed_index + 1).toNat else 0))
    (if resume then (c0.last_processed_index + 1).toNat else 0) _ hj hfirst hintr]
  rw [if_pos rfl]

/-- Input record for the C4 counterexample. -/
def c4Item : RawItem := ⟨"idH", "NameH", "d", "t", "plot(close)"⟩

/-- Accepted outcome for the C4 counterexample. -/
def c4Res : GraphResult :=
  { status := "reasoning_added", augmented_description := "ad", reasoning := "",
    converted_code := "cc", relevant_symbols := [],
    validation_result := true, rejection_reason := "" }

/-- Outcomes for the C4 counterexample: item 0 accepted, interrupt at 1. -/
def c4G : Nat → GraphOutcome :=
  fun i => if i = 0 then GraphOutcome.ok c4Res else GraphOutcome.intr

/-- C4 counterexample: a keyboard interrupt at index 1 of a fresh two-item
run.  The run is flagged interrupted; no artifact was written although the
accepted record of item 0 sits in the buffer; the checkpoint file was never
written; so a second run loads the fresh record and starts at index 0 — the
finalization did not run and the resume point is not the next unprocessed
index 1. -/
theorem c4_interrupt_counterexample :
    (freshRun (fun _ => c4Item) c4G 2).2 = true ∧
    (freshRun (fun _ => c4Item) c4G 2).1.file = CkptFile.absent ∧
    (freshRun (fun _ => c4Item) c4G 2).1.artifacts = [] ∧
    (freshRun (fun _ => c4Item) c4G 2).1.current_batch ≠ [] ∧
    loadCheckpoint (freshRun (fun _ => c4Item) c4G 2).1.file ⟨none, none⟩ =
      Except.ok (freshCheckpoint, ⟨none, none⟩) ∧
    (freshCheckpoint.last_processed_index + 1).toNat = 0 ∧
    (0 : Nat) ≠ 1 :=
  ⟨by decide, by decide, by decide, by decide, by rfl, by decide, by decide⟩

/-- C4 amended: on `KeyboardInterrupt` at index `j`, the finalization
sequence does not run: `process` ends flagged interrupted with exactly the
loop state after items `0 .. j-1` — no final flush of the buffer, no final
checkpoint save, no report; only the per-batch flushes and checkpoint saves
performed inside the loop persist, so a second run resumes at the index
after the last completed batch, not at the next unprocessed index. -/
theorem c4_interrupt_amended (data : Nat → RawItem) (g : Nat → GraphOutcome)
    (N j : Nat) (hj : j < N)
    (hfirst : ∀ t, t < j → g t ≠ GraphOutcome.intr)
    (hintr : g j = GraphOutcome.intr) :
    freshRun data g N =
      ((runLoop data g j 0
        { ckpt := freshCheckpoint, attrs := ⟨none, none⟩, file := CkptFile.absent,
          current_batch := [], batch_num := 0, artifacts := [], batch_stats := [] }).1, true) := by
  have h := processRun_interrupt data g N freshCheckpoint ⟨none, none⟩ CkptFile.absent true 0 j
    rfl (by omega) (fun t ht => by simpa using hfirst t ht) (by simpa using hintr)
  simpa only [freshRun] using h

/-- C4 amended witness: the concrete interrupted run of the counterexample
input equals its truncated one-item loop state. -/
theorem c4_interrupt_amended_witness :
    ((1 : Nat) < 2 ∧ (∀ t, t < 1 → c4G t ≠ GraphOutcome.intr) ∧ c4G 1 = GraphOutcome.intr) ∧
    freshRun (fun _ => c4Item) c4G 2 =
      ((runLoop (fun _ => c4Item) c4G 1 0
        { ckpt := freshCheckpoint, attrs := ⟨none, none⟩, file := CkptFile.absent,
          current_batch := [], batch_num := 0, artifacts := [], batch_stats := [] }).1, true) :=
  ⟨⟨by decide, by decide, by decide⟩,
   c4_interrupt_amended (fun _ => c4Item) c4G 2 1 (by decide) (by decide) (by decide)⟩

/-- C7 counterexample: with an existing but unparseable checkpoint file,
`_load_checkpoint` raises the JSON decode error (there is no handler around
`json.load`) instead of returning the fresh zero-valued record. -/
theorem c7_corrupt_checkpoint_counterexample :
    loadCheckpoint CkptFile.corrupt ⟨none, none⟩ =
      Except.error "json.decoder.JSONDecodeError" ∧
    loadCheckpoint CkptFile.corrupt ⟨none, none⟩ ≠
      Except.ok (freshCheckpoint, ⟨none, none⟩) :=
  ⟨rfl, by simp [loadCheckpoint]⟩

/-- C7 amended: `_load_checkpoint` returns the fresh zero-valued record
(`last_processed_index = -1`) only when the file does not exist; a valid
file is deserialized as stored, restoring its nested stats; an existing but
corrupt file makes the JSON decode error propagate out of
`DataProcessor.__init__`, aborting startup, rather than being treated as
absent with a warning. -/
theorem c7_corrupt_checkpoint_amended (a : Attrs) (c : CheckpointData) :
    loadCheckpoint CkptFile.absent a = Except.ok (freshCheckpoint, a) ∧
    (∃ e, loadCheckpoint CkptFile.corrupt a = Except.error e) ∧
    loadCheckpoint (CkptFile.valid c) ⟨none, none⟩ =
      Except.ok (c, ⟨c.strategy_stats, c.rejection_stats⟩) :=
  ⟨rfl, ⟨"json.decoder.JSONDecodeError", rfl⟩, loadCheckpoint_valid_fresh c⟩
